import Mathlib

/- Shallow embedding of the match-state tracking core of src/main.py
   (AoE2 Insights Telegram bot): snapshot extraction, match start and end
   recording, streak and alert logic, the per-player body of the periodic
   check_friends job, and the startup configuration checks. -/

namespace AOE2

/-- The four values the source stores in the result field of a match
record: the strings gewonnen, verloren, unentschieden, and the empty
string for an unknown result (src/main.py lines 239-244). -/
inductive ResultText
  | gewonnen
  | verloren
  | unentschieden
  | unbekannt
deriving DecidableEq, Repr

/-- Raw value of the won field of a player entry in the upstream JSON:
absent, a boolean, or a string (src/main.py lines 199-203). -/
inductive PyWon
  | absent
  | bool (b : Bool)
  | str (s : String)
deriving DecidableEq, Repr

/-- One entry of the players array of a match snapshot, with the fields
the source reads (src/main.py lines 187-204). -/
structure RawPlayer where
  player_id : Option Int
  rating : Option Int
  civilization : Option String
  civilization_name : Option String
  civ_name : Option String
  civ : Option String
  won : PyWon
deriving DecidableEq, Repr

/-- A match snapshot as returned by fetch_last_match, restricted to the
fields the core reads.  The ongoing field stands for the Python
truthiness of the value at key ongoing; map_name stands for the nested
access to the name of the map object (src/main.py lines 257, 880). -/
structure MatchData where
  uuid : Option String
  ongoing : Bool
  players : List RawPlayer
  duration : Option Int
  finished : Option Int
  map_name : Option String
  name : Option String
  map_type : Option String
  leaderboard : Option String
deriving DecidableEq, Repr

/-- Result of extract_player_info: rating, civilization and parsed won
flag for one player (src/main.py lines 182-205). -/
structure PlayerInfo where
  rating : Option Int
  civilization : Option String
  won : Option Bool
deriving DecidableEq, Repr

/-- Python truthiness of an optional string: None and the empty string
are falsy, every other string is truthy. -/
def truthyStr : Option String → Bool
  | none => false
  | some s => decide (s ≠ "")

/-- Python or between two optional strings: the left operand if it is
truthy, otherwise the right operand unchanged. -/
def pyOr (a b : Option String) : Option String :=
  if truthyStr a then a else b

/-- Python or with a plain string default: the optional string when
truthy, the default otherwise. -/
def pyOrStr (a : Option String) (b : String) : String :=
  match a with
  | some s => if s = "" then b else s
  | none => b

/-- Conversion of the raw won value (src/main.py lines 199-203): a real
boolean is taken as is, a string compares case-insensitively against
true, anything else yields no result. -/
def pyWonToBool : PyWon → Option Bool
  | PyWon.absent => none
  | PyWon.bool b => some b
  | PyWon.str s => some (s.toLower == "true")

/-- Embedding of extract_player_info (src/main.py lines 172-205): find
the first entry of the players array whose player_id equals the given
id and read its rating, resolved civilization and parsed won flag. -/
def extract_player_info (m : MatchData) (player_id : Int) : PlayerInfo :=
  match m.players.find? (fun p => p.player_id == some player_id) with
  | some p =>
    { rating := p.rating,
      civilization := pyOr p.civilization (pyOr p.civilization_name (pyOr p.civ_name p.civ)),
      won := pyWonToBool p.won }
  | none => { rating := none, civilization := none, won := none }

/-- One entry of match_history (src/main.py lines 302-311). -/
structure MatchRecord where
  time : String
  map : String
  civ : String
  rating_before : Option Int
  rating_after : Option Int
  rating_diff : Option Int
  result : ResultText
  duration_sec : Option Int
deriving DecidableEq, Repr

/-- Per-player mutable record (src/main.py lines 111-126). -/
structure PlayerState where
  id : Int
  match_history : List MatchRecord
  rating_history : List (String × Int)
  current_match_id : Option String
  current_match_start_rating : Option Int
  wins_streak : Nat
  losses_streak : Nat
  civ_stats : List (String × Nat × Nat)
  tilt_threshold : Int
  elo_thresholds : List Int
  triggered_elo_alerts : List Int
  playtime : List (String × Int)
deriving DecidableEq, Repr

/-- Default tilt threshold (src/main.py line 51, default value 3). -/
def DEFAULT_TILT_THRESHOLD : Int := 3

/-- Embedding of the fresh player record (src/main.py lines 111-126). -/
def new_player_data (player_id : Int) : PlayerState :=
  { id := player_id,
    match_history := [],
    rating_history := [],
    current_match_id := none,
    current_match_start_rating := none,
    wins_streak := 0,
    losses_streak := 0,
    civ_stats := [],
    tilt_threshold := DEFAULT_TILT_THRESHOLD,
    elo_thresholds := [],
    triggered_elo_alerts := [],
    playtime := [] }

/-- Friend registry (src/main.py lines 57-61). -/
def FRIENDS : List (String × Int) :=
  [("EDM7101", 10770866), ("JustForFun", 10769949), ("rollthedice", 10775508)]

/-- The list-slicing pattern of the source applied only when the length
exceeds the cap (src/main.py lines 314-315 and 320-321): keep the cap
newest entries by dropping from the front. -/
def capLast {α : Type} (cap : Nat) (l : List α) : List α :=
  if l.length > cap then l.drop (l.length - cap) else l

/-- Streak update on a finished match (src/main.py lines 258-268): a win
increments the win streak and clears the loss streak, a loss the other
way around, anything else clears both. -/
def updateStreaks (result : ResultText) (wins losses : Nat) : Nat × Nat :=
  match result with
  | ResultText.gewonnen => (wins + 1, 0)
  | ResultText.verloren => (0, losses + 1)
  | _ => (0, 0)

/-- Result classification (src/main.py lines 239-244): prefer the
explicit won flag, otherwise derive from the sign of the rating
difference, otherwise unknown. -/
def classifyResult (won : Option Bool) (diff : Option Int) : ResultText :=
  match won with
  | some b => if b then ResultText.gewonnen else ResultText.verloren
  | none =>
    match diff with
    | some d =>
      if d > 0 then ResultText.gewonnen
      else if d < 0 then ResultText.verloren
      else ResultText.unentschieden
    | none => ResultText.unbekannt

/-- Civilization tally update (src/main.py lines 283-288): create the
entry for the civilization when missing and bump wins or losses. -/
def updateCivStats (civ : String) (result : ResultText)
    (stats : List (String × Nat × Nat)) : List (String × Nat × Nat) :=
  let bump : Nat × Nat → Nat × Nat := fun e =>
    match result with
    | ResultText.gewonnen => (e.1 + 1, e.2)
    | ResultText.verloren => (e.1, e.2 + 1)
    | _ => e
  if stats.any (fun e => e.1 == civ) then
    stats.map (fun e => if e.1 == civ then (e.1, bump e.2) else e)
  else stats ++ [(civ, bump (0, 0))]

/-- Playtime accrual (src/main.py line 300): add the duration to the
existing total for the day key, starting from 0. -/
def bumpPlaytime (key : String) (secs : Int) (pt : List (String × Int)) : List (String × Int) :=
  if pt.any (fun e => e.1 == key) then
    pt.map (fun e => if e.1 == key then (e.1, e.2 + secs) else e)
  else pt ++ [(key, secs)]

/-- Outcome data of record_match_end used by the summary text and the
alert logic: classification, ratings, delta and which alerts fired. -/
structure EndOutcome where
  result : ResultText
  rating_before : Option Int
  rating_after : Option Int
  diff : Option Int
  tilt_fired : Bool
  streak_fired : Bool
deriving DecidableEq, Repr

/-- Embedding of record_match_end (src/main.py lines 212-344).  The two
string parameters stand for the wall-clock timestamp and the derived
day key the source obtains from datetime; the summary text is replaced
by the structured outcome. -/
def record_match_end (now dayKey : String) (st : PlayerState) (m : MatchData) :
    PlayerState × EndOutcome :=
  let info := extract_player_info m st.id
  let rating_after := info.rating
  let civ := pyOrStr info.civilization "Unbekannt"
  let won := info.won
  let rating_before :=
    match st.current_match_start_rating with
    | some r => some r
    | none =>
      match st.rating_history.getLast? with
      | some e => some e.2
      | none => rating_after
  let diff :=
    match rating_after, rating_before with
    | some ra, some rb => some (ra - rb)
    | _, _ => none
  let result := classifyResult won diff
  let duration_seconds := m.duration
  let map_nm := pyOrStr (pyOr m.map_name (pyOr m.name m.map_type)) "Unbekannt"
  let streaks := updateStreaks result st.wins_streak st.losses_streak
  let tilt_fired : Bool := decide ((streaks.2 : Int) ≥ st.tilt_threshold)
  let losses2 := if tilt_fired then 0 else streaks.2
  let streak_fired : Bool := decide (streaks.1 ≥ 3)
  let wins2 := if streak_fired then 0 else streaks.1
  let civ_stats := updateCivStats civ result st.civ_stats
  let playtime :=
    match duration_seconds with
    | some d => if d ≠ 0 ∧ d > 0 then bumpPlaytime dayKey d st.playtime else st.playtime
    | none => st.playtime
  let history_entry : MatchRecord :=
    { time := now, map := map_nm, civ := civ, rating_before := rating_before,
      rating_after := rating_after, rating_diff := diff, result := result,
      duration_sec := duration_seconds }
  let mh := capLast 50 (st.match_history ++ [history_entry])
  let rh :=
    match rating_after with
    | some ra => capLast 100 (st.rating_history ++ [(now, ra)])
    | none => st.rating_history
  ({ st with
      match_history := mh,
      rating_history := rh,
      current_match_id := none,
      current_match_start_rating := none,
      wins_streak := wins2,
      losses_streak := losses2,
      civ_stats := civ_stats,
      playtime := playtime },
   { result := result, rating_before := rating_before, rating_after := rating_after,
     diff := diff, tilt_fired := tilt_fired, streak_fired := streak_fired })

/-- Embedding of record_match_start (src/main.py lines 347-369): store
the rating from the snapshot as the starting rating and the uuid as the
current match id; the summary text is omitted. -/
def record_match_start (st : PlayerState) (m : MatchData) : PlayerState :=
  let info := extract_player_info m st.id
  { st with
      current_match_start_rating := info.rating,
      current_match_id := m.uuid }

/-- Event observed for one player on one tick of check_friends: nothing,
a detected match start, or a detected match end with its outcome and
the Elo thresholds whose alert fired. -/
inductive TickEvent
  | noEvent
  | started
  | ended (outcome : EndOutcome) (alerts : List Int)
deriving DecidableEq, Repr

/-- Elo alert loop (src/main.py lines 906-910): walk the configured
thresholds in order; a threshold not yet triggered and reached by the
rating fires and is appended to the triggered list, which later
iterations of the same loop already see. -/
def elo_alert_loop (rating_after : Int) (thresholds triggered : List Int) :
    List Int × List Int :=
  match thresholds with
  | [] => (triggered, [])
  | t :: ts =>
    if t ∉ triggered ∧ rating_after ≥ t then
      ((elo_alert_loop rating_after ts (triggered ++ [t])).1,
        t :: (elo_alert_loop rating_after ts (triggered ++ [t])).2)
    else elo_alert_loop rating_after ts triggered

/-- Per-tick rating history update (src/main.py lines 884-887): append
the snapshot rating when known and keep the last 100 entries. -/
def tick_rating_update (now : String) (st : PlayerState) (rating : Option Int) : PlayerState :=
  match rating with
  | some r => { st with rating_history := capLast 100 (st.rating_history ++ [(now, r)]) }
  | none => st

/-- Finished-match branch of check_friends (src/main.py lines 899-915):
record the match end, then run the Elo alert loop when the rating after
the match is known. -/
def process_finished (now dayKey : String) (st : PlayerState) (m : MatchData)
    (rating_after : Option Int) : PlayerState × TickEvent :=
  let r := record_match_end now dayKey st m
  match rating_after with
  | some ra =>
    let alerts := elo_alert_loop ra r.1.elo_thresholds r.1.triggered_elo_alerts
    ({ r.1 with triggered_elo_alerts := alerts.1 }, TickEvent.ended r.2 alerts.2)
  | none => (r.1, TickEvent.ended r.2 [])

/-- Body of the per-player loop of check_friends (src/main.py lines
873-915) for one player: a missing snapshot is skipped, a known rating
is appended to the rating history, an ongoing snapshot with a differing
id records a start, a finished snapshot matching the tracked id records
an end and evaluates the Elo alerts. -/
def check_friend_step (now dayKey : String) (st : PlayerState)
    (fetched : Option MatchData) : PlayerState × TickEvent :=
  match fetched with
  | none => (st, TickEvent.noEvent)
  | some m =>
    let info := extract_player_info m st.id
    let st1 := tick_rating_update now st info.rating
    if m.ongoing then
      if st.current_match_id ≠ m.uuid then
        (record_match_start
          { st1 with current_match_id := m.uuid, current_match_start_rating := info.rating } m,
         TickEvent.started)
      else (st1, TickEvent.noEvent)
    else
      if truthyStr st.current_match_id ∧ st.current_match_id = m.uuid then
        process_finished now dayKey st1 m info.rating
      else (st1, TickEvent.noEvent)

/-- Admin update of the tilt threshold (src/main.py lines 839-843). -/
def set_tilt_threshold (st : PlayerState) (val : Int) : PlayerState :=
  { st with tilt_threshold := val }

/-- Admin addition of an Elo alert threshold (src/main.py lines
851-856): appended only when not already configured. -/
def add_elo_threshold (st : PlayerState) (val : Int) : PlayerState :=
  if val ∈ st.elo_thresholds then st
  else { st with elo_thresholds := st.elo_thresholds ++ [val] }

/-- One operation of the process on a single player state: a tick of
check_friends with the fetched snapshot, or one of the two admin
mutations. -/
inductive Op
  | tick (fetched : Option MatchData)
  | setTilt (v : Int)
  | addElo (v : Int)
deriving DecidableEq, Repr

/-- Application of one operation to a player state. -/
def apply_op (now dayKey : String) (st : PlayerState) : Op → PlayerState × TickEvent
  | Op.tick f => check_friend_step now dayKey st f
  | Op.setTilt v => (set_tilt_threshold st v, TickEvent.noEvent)
  | Op.addElo v => (add_elo_threshold st v, TickEvent.noEvent)

/-- Fold of a list of operations over a player state. -/
def run_ops (now dayKey : String) (st : PlayerState) : List Op → PlayerState
  | [] => st
  | o :: os => run_ops now dayKey (apply_op now dayKey st o).1 os

/-- Events produced by a sequence of ticks. -/
def run_events (now dayKey : String) (st : PlayerState) : List (Option MatchData) → List TickEvent
  | [] => []
  | f :: fs =>
    (check_friend_step now dayKey st f).2 ::
      run_events now dayKey (check_friend_step now dayKey st f).1 fs

/-- State after a sequence of ticks. -/
def run_ticks (now dayKey : String) (st : PlayerState) : List (Option MatchData) → PlayerState
  | [] => st
  | f :: fs => run_ticks now dayKey (check_friend_step now dayKey st f).1 fs

/-- Whether a tick event is a detected match end. -/
def isEnd : TickEvent → Bool
  | TickEvent.ended _ _ => true
  | _ => false

/-- The fired Elo alerts carried by a tick event. -/
def eventAlerts : TickEvent → List Int
  | TickEvent.ended _ alerts => alerts
  | _ => []

/-- Number of end events over a sequence of ticks. -/
def count_ends (now dayKey : String) (st : PlayerState) : List (Option MatchData) → Nat
  | [] => 0
  | f :: fs =>
    (if isEnd (check_friend_step now dayKey st f).2 then 1 else 0) +
      count_ends now dayKey (check_friend_step now dayKey st f).1 fs

/-- Number of operations in which the alert for a given threshold fires. -/
def fired_count (t : Int) (now dayKey : String) (st : PlayerState) : List Op → Nat
  | [] => 0
  | o :: os =>
    (if t ∈ eventAlerts (apply_op now dayKey st o).2 then 1 else 0) +
      fired_count t now dayKey (apply_op now dayKey st o).1 os

/-- Parsing of the CHAT_ID environment value (src/main.py lines 32-39):
integer conversion of the string, None on failure or when unset. -/
def CHAT_ID_of (env : Option String) : Option Int :=
  env.bind (fun s => s.toInt?)

/-- The handlers and jobs main installs after the configuration checks
succeed (src/main.py lines 987-1005). -/
structure BotApp where
  handlers : List String
  jobs : List String
deriving DecidableEq, Repr

/-- Embedding of main (src/main.py lines 977-1007): a falsy bot token
or an unparsed chat id raises before anything is installed; otherwise
the application with its handlers and repeating jobs is built. -/
def main_entry (bot_token chat_id_env : Option String) : Except String BotApp :=
  if truthyStr bot_token = false then
    Except.error "BOT_TOKEN ist nicht gesetzt"
  else if (CHAT_ID_of chat_id_env).isNone then
    Except.error "CHAT_ID ist nicht gesetzt"
  else
    Except.ok
      { handlers := ["start", "menu", "live", "leaderboard", "teams", "weekly",
                     "callback_query", "help", "message"],
        jobs := ["check_friends", "send_weekly_report"] }

/- Helper lemmas about the capped histories. -/

/-- Appending to a list within its cap keeps the capped result within
the cap. -/
theorem capLast_length_le {α : Type} (cap : Nat) (l : List α) (e : α) (h : l.length ≤ cap) :
    (capLast cap (l ++ [e])).length ≤ cap := by
  unfold capLast
  by_cases hl : (l ++ [e]).length > cap
  · rw [if_pos hl]
    simp only [List.length_drop, List.length_append, List.length_singleton] at *
    omega
  · rw [if_neg hl]
    simp only [List.length_append, List.length_singleton] at *
    omega

/-- Capping after a single append keeps the appended element as the last
entry. -/
theorem capLast_suffix_one {α : Type} (cap : Nat) (hc : 1 ≤ cap) (l : List α) (e : α) :
    ∃ l₀, capLast cap (l ++ [e]) = l₀ ++ [e] := by
  unfold capLast
  by_cases h : (l ++ [e]).length > cap
  · rw [if_pos h]
    refine ⟨l.drop ((l ++ [e]).length - cap), ?_⟩
    exact List.drop_append_of_le_length (by simp at h ⊢; omega)
  · rw [if_neg h]
    exact ⟨l, rfl⟩

/-- Capping after an append keeps the two last entries when the cap is at
least two. -/
theorem capLast_suffix_two {α : Type} (cap : Nat) (hc : 2 ≤ cap) (l : List α) (a b : α) :
    ∃ l₀, capLast cap (l ++ [a, b]) = l₀ ++ [a, b] := by
  unfold capLast
  by_cases h : (l ++ [a, b]).length > cap
  · rw [if_pos h]
    refine ⟨l.drop ((l ++ [a, b]).length - cap), ?_⟩
    exact List.drop_append_of_le_length (by simp at h ⊢; omega)
  · rw [if_neg h]
    exact ⟨l, rfl⟩

/-- At the cap boundary the capped append evicts exactly the oldest
entry. -/
theorem capLast_boundary {α : Type} (cap : Nat) (hc : 1 ≤ cap) (l : List α) (e : α)
    (h : l.length = cap) : capLast cap (l ++ [e]) = l.tail ++ [e] := by
  unfold capLast
  rw [if_pos (by simp only [List.length_append, List.length_singleton]; omega)]
  have h1 : (l ++ [e]).length - cap = 1 := by
    simp only [List.length_append, List.length_singleton]
    omega
  rw [h1, List.drop_append_of_le_length (by omega), List.drop_one]

/- Projection lemmas for the embedded operations. -/

theorem tick_rating_update_id (now : String) (st : PlayerState) (r : Option Int) :
    (tick_rating_update now st r).id = st.id := by cases r <;> rfl

theorem tick_rating_update_current (now : String) (st : PlayerState) (r : Option Int) :
    (tick_rating_update now st r).current_match_id = st.current_match_id := by cases r <;> rfl

theorem tick_rating_update_smr (now : String) (st : PlayerState) (r : Option Int) :
    (tick_rating_update now st r).current_match_start_rating
      = st.current_match_start_rating := by cases r <;> rfl

theorem tick_rating_update_mh (now : String) (st : PlayerState) (r : Option Int) :
    (tick_rating_update now st r).match_history = st.match_history := by cases r <;> rfl

theorem tick_rating_update_triggered (now : String) (st : PlayerState) (r : Option Int) :
    (tick_rating_update now st r).triggered_elo_alerts
      = st.triggered_elo_alerts := by cases r <;> rfl

theorem tick_rating_update_thresholds (now : String) (st : PlayerState) (r : Option Int) :
    (tick_rating_update now st r).elo_thresholds = st.elo_thresholds := by cases r <;> rfl

theorem tick_rating_update_rh_some (now : String) (st : PlayerState) (r : Int) :
    (tick_rating_update now st (some r)).rating_history
      = capLast 100 (st.rating_history ++ [(now, r)]) := rfl

theorem record_match_end_current (now dayKey : String) (st : PlayerState) (m : MatchData) :
    (record_match_end now dayKey st m).1.current_match_id = none := rfl

theorem record_match_end_smr (now dayKey : String) (st : PlayerState) (m : MatchData) :
    (record_match_end now dayKey st m).1.current_match_start_rating = none := rfl

theorem record_match_end_triggered (now dayKey : String) (st : PlayerState) (m : MatchData) :
    (record_match_end now dayKey st m).1.triggered_elo_alerts = st.triggered_elo_alerts := rfl

theorem record_match_end_thresholds (now dayKey : String) (st : PlayerState) (m : MatchData) :
    (record_match_end now dayKey st m).1.elo_thresholds = st.elo_thresholds := rfl

theorem record_match_end_tilt_thr (now dayKey : String) (st : PlayerState) (m : MatchData) :
    (record_match_end now dayKey st m).1.tilt_threshold = st.tilt_threshold := rfl

theorem record_match_end_id (now dayKey : String) (st : PlayerState) (m : MatchData) :
    (record_match_end now dayKey st m).1.id = st.id := rfl

theorem record_match_start_current (st : PlayerState) (m : MatchData) :
    (record_match_start st m).current_match_id = m.uuid := rfl

theorem record_match_start_smr (st : PlayerState) (m : MatchData) :
    (record_match_start st m).current_match_start_rating
      = (extract_player_info m st.id).rating := rfl

theorem record_match_start_rh (st : PlayerState) (m : MatchData) :
    (record_match_start st m).rating_history = st.rating_history := rfl

theorem record_match_start_mh (st : PlayerState) (m : MatchData) :
    (record_match_start st m).match_history = st.match_history := rfl

theorem record_match_start_triggered (st : PlayerState) (m : MatchData) :
    (record_match_start st m).triggered_elo_alerts = st.triggered_elo_alerts := rfl

theorem process_finished_current (now dayKey : String) (st : PlayerState) (m : MatchData)
    (ra : Option Int) : (process_finished now dayKey st m ra).1.current_match_id = none := by
  cases ra <;> rfl

theorem process_finished_smr (now dayKey : String) (st : PlayerState) (m : MatchData)
    (ra : Option Int) :
    (process_finished now dayKey st m ra).1.current_match_start_rating = none := by
  cases ra <;> rfl

theorem process_finished_isEnd (now dayKey : String) (st : PlayerState) (m : MatchData)
    (ra : Option Int) : isEnd (process_finished now dayKey st m ra).2 = true := by
  cases ra <;> rfl

theorem process_finished_rh (now dayKey : String) (st : PlayerState) (m : MatchData)
    (ra : Option Int) :
    (process_finished now dayKey st m ra).1.rating_history
      = (record_match_end now dayKey st m).1.rating_history := by
  cases ra <;> rfl

theorem process_finished_mh (now dayKey : String) (st : PlayerState) (m : MatchData)
    (ra : Option Int) :
    (process_finished now dayKey st m ra).1.match_history
      = (record_match_end now dayKey st m).1.match_history := by
  cases ra <;> rfl

/- Branch lemmas for the per-player tick. -/

theorem check_friend_step_none (now dayKey : String) (st : PlayerState) :
    check_friend_step now dayKey st none = (st, TickEvent.noEvent) := rfl

theorem check_friend_step_ongoing_new (now dayKey : String) (st : PlayerState) (m : MatchData)
    (h1 : m.ongoing = true) (h2 : st.current_match_id ≠ m.uuid) :
    check_friend_step now dayKey st (some m) =
      (record_match_start
        { tick_rating_update now st (extract_player_info m st.id).rating with
            current_match_id := m.uuid,
            current_match_start_rating := (extract_player_info m st.id).rating } m,
       TickEvent.started) := by
  simp [check_friend_step, h1, h2]

theorem check_friend_step_ongoing_same (now dayKey : String) (st : PlayerState) (m : MatchData)
    (h1 : m.ongoing = true) (h2 : st.current_match_id = m.uuid) :
    check_friend_step now dayKey st (some m) =
      (tick_rating_update now st (extract_player_info m st.id).rating, TickEvent.noEvent) := by
  simp [check_friend_step, h1, h2]

theorem check_friend_step_finished_tracked (now dayKey : String) (st : PlayerState)
    (m : MatchData) (h1 : m.ongoing = false) (h2 : truthyStr st.current_match_id = true)
    (h3 : st.current_match_id = m.uuid) :
    check_friend_step now dayKey st (some m) =
      process_finished now dayKey
        (tick_rating_update now st (extract_player_info m st.id).rating) m
        (extract_player_info m st.id).rating := by
  have h4 : truthyStr m.uuid = true := h3 ▸ h2
  simp [check_friend_step, h1, h2, h3, h4]

theorem check_friend_step_finished_skip (now dayKey : String) (st : PlayerState)
    (m : MatchData) (h1 : m.ongoing = false)
    (h2 : ¬(truthyStr st.current_match_id = true ∧ st.current_match_id = m.uuid)) :
    check_friend_step now dayKey st (some m) =
      (tick_rating_update now st (extract_player_info m st.id).rating, TickEvent.noEvent) := by
  simp only [check_friend_step, h1, Bool.false_eq_true, if_false]
  rw [if_neg h2]

/- Concrete data for the start-detection examples. -/

/-- Concrete player used in the start-detection examples: a previously
known rating of 1000 is on record and no match is tracked. -/
def c1_state : PlayerState :=
  { new_player_data 10770866 with rating_history := [("t0", 1000)] }

/-- Snapshot of a fresh ongoing match whose in-match rating 1050 already
differs from the previously known rating 1000. -/
def c1_match : MatchData :=
  { uuid := some "A", ongoing := true,
    players := [{ player_id := some 10770866, rating := some 1050,
                  civilization := none, civilization_name := none,
                  civ_name := none, civ := none, won := PyWon.absent }],
    duration := none, finished := none, map_name := none, name := none,
    map_type := none, leaderboard := none }

/-- C1 counterexample: on a new ongoing match the code stores the
snapshot rating 1050 as the pre-match rating even though a previously
known rating 1000 is on record, so the claimed preference for the
previously known rating fails on this input. -/
theorem c1_counterexample :
    (check_friend_step "t1" "d1" c1_state (some c1_match)).1.current_match_start_rating
        = some 1050 ∧
      some (1050 : Int) ≠ some (1000 : Int) := by
  exact ⟨rfl, by decide⟩

/-- C1 amended: on an ongoing snapshot whose id differs from the tracked
one, the detector records a start, the tracked id becomes the snapshot
id, and the pre-match rating is set to the rating carried in the
snapshot itself (possibly absent); the previously known rating is not
consulted at start-detection time. -/
theorem c1_start_assignment (now dayKey : String) (st : PlayerState) (m : MatchData)
    (h1 : m.ongoing = true) (h2 : st.current_match_id ≠ m.uuid) :
    (check_friend_step now dayKey st (some m)).1.current_match_id = m.uuid ∧
    (check_friend_step now dayKey st (some m)).1.current_match_start_rating
      = (extract_player_info m st.id).rating ∧
    (check_friend_step now dayKey st (some m)).2 = TickEvent.started := by
  rw [check_friend_step_ongoing_new now dayKey st m h1 h2]
  refine ⟨rfl, ?_, rfl⟩
  show (extract_player_info m
      (tick_rating_update now st (extract_player_info m st.id).rating).id).rating
    = (extract_player_info m st.id).rating
  rw [tick_rating_update_id]

/-- C1 witness: the amended start assignment evaluated on the concrete
player and snapshot. -/
theorem c1_start_assignment_witness :
    (check_friend_step "t1" "d1" c1_state (some c1_match)).1.current_match_id = some "A" ∧
    (check_friend_step "t1" "d1" c1_state (some c1_match)).1.current_match_start_rating
      = (extract_player_info c1_match c1_state.id).rating ∧
    (check_friend_step "t1" "d1" c1_state (some c1_match)).2 = TickEvent.started := by
  have h := c1_start_assignment "t1" "d1" c1_state c1_match rfl (by decide)
  exact ⟨h.1, h.2.1, h.2.2⟩

/-- C3: when the fetch yields no snapshot the tick leaves the player
state completely unchanged and emits no event, over arbitrarily many
consecutive such ticks; the embedded step is total, so no exception
propagates. -/
theorem c3_none_noop (now dayKey : String) (st : PlayerState) :
    check_friend_step now dayKey st none = (st, TickEvent.noEvent) ∧
    (∀ k : Nat, run_ticks now dayKey st (List.replicate k none) = st ∧
      run_events now dayKey st (List.replicate k none)
        = List.replicate k TickEvent.noEvent) := by
  refine ⟨rfl, ?_⟩
  intro k
  induction k with
  | zero => exact ⟨rfl, rfl⟩
  | succ n ih =>
    refine ⟨?_, ?_⟩
    · simpa [List.replicate_succ, run_ticks, check_friend_step] using ih.1
    · simp [List.replicate_succ, run_events, check_friend_step, ih.2]

/- Machinery for the at-most-one-end property. -/

/-- A tick on a snapshot reports an end exactly when the snapshot is
finished, the tracked match id is truthy and it equals the snapshot
id. -/
theorem step_end_iff (now dayKey : String) (st : PlayerState) (m : MatchData) :
    isEnd (check_friend_step now dayKey st (some m)).2 = true ↔
      (m.ongoing = false ∧ truthyStr st.current_match_id = true ∧
        st.current_match_id = m.uuid) := by
  constructor
  · intro h
    by_cases h1 : m.ongoing = true
    · by_cases h2 : st.current_match_id ≠ m.uuid
      · rw [check_friend_step_ongoing_new now dayKey st m h1 h2] at h
        simp [isEnd] at h
      · push_neg at h2
        rw [check_friend_step_ongoing_same now dayKey st m h1 h2] at h
        simp [isEnd] at h
    · have h1' : m.ongoing = false := by simpa using h1
      by_cases h2 : truthyStr st.current_match_id = true ∧ st.current_match_id = m.uuid
      · exact ⟨h1', h2.1, h2.2⟩
      · rw [check_friend_step_finished_skip now dayKey st m h1' h2] at h
        simp [isEnd] at h
  · rintro ⟨h1, h2, h3⟩
    rw [check_friend_step_finished_tracked now dayKey st m h1 h2 h3]
    exact process_finished_isEnd now dayKey _ m _

/-- A tick that reports an end clears the tracked match id and the
stored pre-match rating. -/
theorem step_end_clears (now dayKey : String) (st : PlayerState) (f : Option MatchData)
    (h : isEnd (check_friend_step now dayKey st f).2 = true) :
    (check_friend_step now dayKey st f).1.current_match_id = none ∧
    (check_friend_step now dayKey st f).1.current_match_start_rating = none := by
  cases f with
  | none => simp [check_friend_step, isEnd] at h
  | some m =>
    have hc := (step_end_iff now dayKey st m).1 h
    rw [check_friend_step_finished_tracked now dayKey st m hc.1 hc.2.1 hc.2.2]
    exact ⟨process_finished_current now dayKey _ m _, process_finished_smr now dayKey _ m _⟩

/-- With no tracked match, consecutive observations of a finished
snapshot produce no end event at all. -/
theorem count_ends_zero_of_none (now dayKey : String) (m : MatchData)
    (h1 : m.ongoing = false) :
    ∀ (k : Nat) (st : PlayerState), st.current_match_id = none →
      count_ends now dayKey st (List.replicate k (some m)) = 0 := by
  intro k
  induction k with
  | zero => intro st _; rfl
  | succ n ih =>
    intro st h
    have hg : ¬(truthyStr st.current_match_id = true ∧ st.current_match_id = m.uuid) := by
      rw [h]
      simp [truthyStr]
    rw [List.replicate_succ]
    simp only [count_ends]
    rw [check_friend_step_finished_skip now dayKey st m h1 hg]
    have hcur : (tick_rating_update now st
        (extract_player_info m st.id).rating).current_match_id = none := by
      rw [tick_rating_update_current, h]
    simp [isEnd, ih _ hcur]

/-- Over consecutive observations of the same finished snapshot, at most
one end event is produced. -/
theorem count_ends_le_one (now dayKey : String) (m : MatchData) (h1 : m.ongoing = false) :
    ∀ (k : Nat) (st : PlayerState),
      count_ends now dayKey st (List.replicate k (some m)) ≤ 1 := by
  intro k
  induction k with
  | zero => intro st; exact Nat.zero_le 1
  | succ n ih =>
    intro st
    rw [List.replicate_succ]
    simp only [count_ends]
    by_cases hE : isEnd (check_friend_step now dayKey st (some m)).2 = true
    · have hnone := (step_end_clears now dayKey st (some m) hE).1
      rw [hE, count_ends_zero_of_none now dayKey m h1 n _ hnone]
      simp
    · have hE' : isEnd (check_friend_step now dayKey st (some m)).2 = false := by
        simpa using hE
      rw [hE']
      simpa using ih (check_friend_step now dayKey st (some m)).1

/-- C2: an end event fires only on a finished snapshot whose id equals
the tracked current match id, which must be set; the end processing
clears the tracked id and the pre-match rating, and over any number of
consecutive ticks observing the same finished snapshot at most one end
event is produced. -/
theorem c2_end_once (now dayKey : String) (st : PlayerState) (m : MatchData) :
    (isEnd (check_friend_step now dayKey st (some m)).2 = true →
      m.ongoing = false ∧ st.current_match_id.isSome = true ∧
        st.current_match_id = m.uuid ∧
        (check_friend_step now dayKey st (some m)).1.current_match_id = none ∧
        (check_friend_step now dayKey st (some m)).1.current_match_start_rating = none) ∧
    (m.ongoing = false →
      ∀ k : Nat, count_ends now dayKey st (List.replicate k (some m)) ≤ 1) := by
  constructor
  · intro h
    have hc := (step_end_iff now dayKey st m).1 h
    have hclear := step_end_clears now dayKey st (some m) h
    refine ⟨hc.1, ?_, hc.2.2, hclear.1, hclear.2⟩
    cases hcm : st.current_match_id with
    | none =>
      rw [hcm] at hc
      simp [truthyStr] at hc
    | some s => rfl
  · intro h1 k
    exact count_ends_le_one now dayKey m h1 k st

/-- Concrete player tracking match A with a stored pre-match rating. -/
def c2_state : PlayerState :=
  { new_player_data 42 with
    current_match_id := some "A",
    current_match_start_rating := some 1000 }

/-- Concrete finished snapshot of match A with an explicit win and the
rating after the match. -/
def c2_match : MatchData :=
  { uuid := some "A", ongoing := false,
    players := [{ player_id := some 42, rating := some 1020,
                  civilization := none, civilization_name := none,
                  civ_name := none, civ := none, won := PyWon.bool true }],
    duration := none, finished := none, map_name := none, name := none,
    map_type := none, leaderboard := none }

/-- C2 witness: the at-most-once property evaluated on a concrete player
observing the same finished snapshot three times, together with the
firing conditions on the first tick. -/
theorem c2_end_once_witness :
    (c2_match.ongoing = false ∧ c2_state.current_match_id.isSome = true ∧
      c2_state.current_match_id = c2_match.uuid ∧
      (check_friend_step "t1" "d1" c2_state (some c2_match)).1.current_match_id = none ∧
      (check_friend_step "t1" "d1" c2_state
          (some c2_match)).1.current_match_start_rating = none) ∧
    count_ends "t1" "d1" c2_state (List.replicate 3 (some c2_match)) ≤ 1 :=
  ⟨(c2_end_once "t1" "d1" c2_state c2_match).1 (by decide),
   (c2_end_once "t1" "d1" c2_state c2_match).2 rfl 3⟩

/- Machinery for the history caps. -/

theorem tick_rating_update_rh_len (now : String) (st : PlayerState) (r : Option Int)
    (h : st.rating_history.length ≤ 100) :
    (tick_rating_update now st r).rating_history.length ≤ 100 := by
  cases r with
  | none => exact h
  | some x => exact capLast_length_le 100 _ _ h

theorem record_match_end_mh_ex (now dayKey : String) (st : PlayerState) (m : MatchData) :
    ∃ e, (record_match_end now dayKey st m).1.match_history
      = capLast 50 (st.match_history ++ [e]) := ⟨_, rfl⟩

theorem record_match_end_rh (now dayKey : String) (st : PlayerState) (m : MatchData) :
    (record_match_end now dayKey st m).1.rating_history
      = match (extract_player_info m st.id).rating with
        | some ra => capLast 100 (st.rating_history ++ [(now, ra)])
        | none => st.rating_history := rfl

theorem record_match_end_rh_some (now dayKey : String) (st : PlayerState) (m : MatchData)
    (r : Int) (hr : (extract_player_info m st.id).rating = some r) :
    (record_match_end now dayKey st m).1.rating_history
      = capLast 100 (st.rating_history ++ [(now, r)]) := by
  rw [record_match_end_rh, hr]

theorem record_match_end_rh_len (now dayKey : String) (st : PlayerState) (m : MatchData)
    (h : st.rating_history.length ≤ 100) :
    (record_match_end now dayKey st m).1.rating_history.length ≤ 100 := by
  rw [record_match_end_rh]
  cases (extract_player_info m st.id).rating with
  | none => exact h
  | some ra => exact capLast_length_le 100 _ _ h

theorem record_match_end_mh_len (now dayKey : String) (st : PlayerState) (m : MatchData)
    (h : st.match_history.length ≤ 50) :
    (record_match_end now dayKey st m).1.match_history.length ≤ 50 := by
  obtain ⟨e, he⟩ := record_match_end_mh_ex now dayKey st m
  rw [he]
  exact capLast_length_le 50 _ _ h

/-- Both history caps are preserved by one tick. -/
theorem step_caps (now dayKey : String) (st : PlayerState) (f : Option MatchData)
    (h50 : st.match_history.length ≤ 50) (h100 : st.rating_history.length ≤ 100) :
    (check_friend_step now dayKey st f).1.match_history.length ≤ 50 ∧
    (check_friend_step now dayKey st f).1.rating_history.length ≤ 100 := by
  cases f with
  | none => exact ⟨h50, h100⟩
  | some m =>
    have hmh1 : (tick_rating_update now st
        (extract_player_info m st.id).rating).match_history.length ≤ 50 := by
      rw [tick_rating_update_mh]
      exact h50
    have hrh1 := tick_rating_update_rh_len now st (extract_player_info m st.id).rating h100
    by_cases h1 : m.ongoing = true
    · by_cases h2 : st.current_match_id ≠ m.uuid
      · rw [check_friend_step_ongoing_new now dayKey st m h1 h2]
        constructor
        · rw [record_match_start_mh]
          exact hmh1
        · rw [record_match_start_rh]
          exact hrh1
      · push_neg at h2
        rw [check_friend_step_ongoing_same now dayKey st m h1 h2]
        exact ⟨hmh1, hrh1⟩
    · have h1' : m.ongoing = false := by simpa using h1
      by_cases h2 : truthyStr st.current_match_id = true ∧ st.current_match_id = m.uuid
      · rw [check_friend_step_finished_tracked now dayKey st m h1' h2.1 h2.2]
        constructor
        · rw [process_finished_mh]
          exact record_match_end_mh_len now dayKey _ m hmh1
        · rw [process_finished_rh]
          exact record_match_end_rh_len now dayKey _ m hrh1
      · rw [check_friend_step_finished_skip now dayKey st m h1' h2]
        exact ⟨hmh1, hrh1⟩

theorem set_tilt_mh (st : PlayerState) (v : Int) :
    (set_tilt_threshold st v).match_history = st.match_history := rfl

theorem set_tilt_rh (st : PlayerState) (v : Int) :
    (set_tilt_threshold st v).rating_history = st.rating_history := rfl

theorem add_elo_mh (st : PlayerState) (v : Int) :
    (add_elo_threshold st v).match_history = st.match_history := by
  unfold add_elo_threshold
  split <;> rfl

theorem add_elo_rh (st : PlayerState) (v : Int) :
    (add_elo_threshold st v).rating_history = st.rating_history := by
  unfold add_elo_threshold
  split <;> rfl

/-- Both history caps are preserved by any sequence of operations. -/
theorem run_ops_caps (now dayKey : String) :
    ∀ (ops : List Op) (st : PlayerState),
      st.match_history.length ≤ 50 → st.rating_history.length ≤ 100 →
      (run_ops now dayKey st ops).match_history.length ≤ 50 ∧
      (run_ops now dayKey st ops).rating_history.length ≤ 100 := by
  intro ops
  induction ops with
  | nil => intro st h50 h100; exact ⟨h50, h100⟩
  | cons o os ih =>
    intro st h50 h100
    simp only [run_ops]
    cases o with
    | tick f =>
      have h := step_caps now dayKey st f h50 h100
      exact ih _ h.1 h.2
    | setTilt v => exact ih _ h50 h100
    | addElo v =>
      refine ih _ ?_ ?_
      · have e1 : (apply_op now dayKey st (Op.addElo v)).1.match_history
            = st.match_history := add_elo_mh st v
        rw [e1]
        exact h50
      · have e2 : (apply_op now dayKey st (Op.addElo v)).1.rating_history
            = st.rating_history := add_elo_rh st v
        rw [e2]
        exact h100

/-- C4: from any state within the caps, any sequence of operations keeps
match_history within 50 entries and rating_history within 100 entries,
and at the cap boundary an append evicts exactly the oldest entry. -/
theorem c4_history_caps :
    (∀ (now dayKey : String) (st : PlayerState) (ops : List Op),
      st.match_history.length ≤ 50 → st.rating_history.length ≤ 100 →
      (run_ops now dayKey st ops).match_history.length ≤ 50 ∧
      (run_ops now dayKey st ops).rating_history.length ≤ 100) ∧
    (∀ (l : List MatchRecord) (e : MatchRecord), l.length = 50 →
      capLast 50 (l ++ [e]) = l.tail ++ [e]) ∧
    (∀ (l : List (String × Int)) (e : String × Int), l.length = 100 →
      capLast 100 (l ++ [e]) = l.tail ++ [e]) := by
  refine ⟨?_, ?_, ?_⟩
  · intro now dayKey st ops h50 h100
    exact run_ops_caps now dayKey ops st h50 h100
  · intro l e h
    exact capLast_boundary 50 (by omega) l e h
  · intro l e h
    exact capLast_boundary 100 (by omega) l e h

/-- Sample match record used in the cap witnesses. -/
def sample_record : MatchRecord :=
  { time := "t0", map := "Arabia", civ := "Franks", rating_before := some 1000,
    rating_after := some 1010, rating_diff := some 10,
    result := ResultText.gewonnen, duration_sec := some 1200 }

/-- C4 witness: cap preservation on a concrete run and boundary eviction
on concrete histories exactly at the caps. -/
theorem c4_history_caps_witness :
    ((run_ops "t1" "d1" (new_player_data 7)
        [Op.tick (some c2_match)]).match_history.length ≤ 50 ∧
      (run_ops "t1" "d1" (new_player_data 7)
        [Op.tick (some c2_match)]).rating_history.length ≤ 100) ∧
    capLast 50 (List.replicate 50 sample_record ++ [sample_record])
      = (List.replicate 50 sample_record).tail ++ [sample_record] ∧
    capLast 100 (List.replicate 100 ("t0", (1000 : Int)) ++ [("t0", (1000 : Int))])
      = (List.replicate 100 ("t0", (1000 : Int))).tail ++ [("t0", (1000 : Int))] :=
  ⟨c4_history_caps.1 "t1" "d1" (new_player_data 7) [Op.tick (some c2_match)]
      (by decide) (by decide),
   c4_history_caps.2.1 _ _ (by simp),
   c4_history_caps.2.2 _ _ (by simp)⟩

/-- C10: a tick whose snapshot carries a rating for the player appends
it to the rating history even while the match is ongoing, and the tick
that detects a match end with a known rating appends that same rating a
second time through the end recording, leaving it twice at the end of
the history. -/
theorem c10_double_rating_append (now dayKey : String) (st : PlayerState) (m : MatchData)
    (r : Int) (hr : (extract_player_info m st.id).rating = some r) :
    (m.ongoing = true →
      ∃ l₀, (check_friend_step now dayKey st (some m)).1.rating_history
        = l₀ ++ [(now, r)]) ∧
    (m.ongoing = false → truthyStr st.current_match_id = true →
      st.current_match_id = m.uuid →
      ∃ l₀, (check_friend_step now dayKey st (some m)).1.rating_history
        = l₀ ++ [(now, r), (now, r)]) := by
  have hst1 : (tick_rating_update now st
      (extract_player_info m st.id).rating).rating_history
      = capLast 100 (st.rating_history ++ [(now, r)]) := by
    rw [hr]
    exact tick_rating_update_rh_some now st r
  constructor
  · intro h1
    by_cases h2 : st.current_match_id ≠ m.uuid
    · rw [check_friend_step_ongoing_new now dayKey st m h1 h2, record_match_start_rh]
      show ∃ l₀, (tick_rating_update now st
          (extract_player_info m st.id).rating).rating_history = l₀ ++ [(now, r)]
      rw [hst1]
      exact capLast_suffix_one 100 (by omega) _ _
    · push_neg at h2
      rw [check_friend_step_ongoing_same now dayKey st m h1 h2]
      show ∃ l₀, (tick_rating_update now st
          (extract_player_info m st.id).rating).rating_history = l₀ ++ [(now, r)]
      rw [hst1]
      exact capLast_suffix_one 100 (by omega) _ _
  · intro h1 h2 h3
    rw [check_friend_step_finished_tracked now dayKey st m h1 h2 h3, process_finished_rh]
    have hr1 : (extract_player_info m (tick_rating_update now st
        (extract_player_info m st.id).rating).id).rating = some r := by
      rw [tick_rating_update_id]
      exact hr
    rw [record_match_end_rh_some now dayKey _ m r hr1, hst1]
    obtain ⟨l₀, hl⟩ := capLast_suffix_one 100 (by omega) st.rating_history (now, r)
    rw [hl]
    have hassoc : (l₀ ++ [(now, r)]) ++ [(now, r)] = l₀ ++ [(now, r), (now, r)] := by
      simp
    rw [hassoc]
    exact capLast_suffix_two 100 (by omega) l₀ (now, r) (now, r)

/-- C10 witness: on the concrete end tick the rating 1020 appears twice
at the end of the rating history. -/
theorem c10_double_rating_append_witness :
    ∃ l₀, (check_friend_step "t1" "d1" c2_state (some c2_match)).1.rating_history
      = l₀ ++ [("t1", (1020 : Int)), ("t1", (1020 : Int))] :=
  (c10_double_rating_append "t1" "d1" c2_state c2_match 1020 rfl).2 rfl (by decide) rfl

/- Machinery for the one-shot Elo alerts. -/

/-- The triggered list only grows through the alert loop. -/
theorem elo_alert_loop_mono (ra : Int) :
    ∀ (ts triggered : List Int) (t : Int), t ∈ triggered →
      t ∈ (elo_alert_loop ra ts triggered).1 := by
  intro ts
  induction ts with
  | nil => intro tr t h; exact h
  | cons a ts ih =>
    intro tr t h
    simp only [elo_alert_loop]
    by_cases hc : a ∉ tr ∧ ra ≥ a
    · rw [if_pos hc]
      exact ih (tr ++ [a]) t (List.mem_append_left _ h)
    · rw [if_neg hc]
      exact ih tr t h

/-- A threshold that fires was not triggered before, is reached by the
rating, and is in the triggered list afterwards. -/
theorem elo_alert_loop_fired (ra : Int) :
    ∀ (ts triggered : List Int) (t : Int), t ∈ (elo_alert_loop ra ts triggered).2 →
      t ∉ triggered ∧ ra ≥ t ∧ t ∈ (elo_alert_loop ra ts triggered).1 := by
  intro ts
  induction ts with
  | nil => intro tr t h; simp [elo_alert_loop] at h
  | cons a ts ih =>
    intro tr t h
    simp only [elo_alert_loop] at h ⊢
    by_cases hc : a ∉ tr ∧ ra ≥ a
    · rw [if_pos hc] at h ⊢
      rcases List.mem_cons.mp h with he | he
      · subst he
        exact ⟨hc.1, hc.2, elo_alert_loop_mono ra ts (tr ++ [t]) t (by simp)⟩
      · have h3 := ih (tr ++ [a]) t he
        exact ⟨fun hm => h3.1 (List.mem_append_left _ hm), h3.2.1, h3.2.2⟩
    · rw [if_neg hc] at h ⊢
      exact ih tr t h

/-- A threshold already triggered never fires again in the loop. -/
theorem elo_alert_loop_no_refire (ra : Int) :
    ∀ (ts triggered : List Int) (t : Int), t ∈ triggered →
      t ∉ (elo_alert_loop ra ts triggered).2 := by
  intro ts
  induction ts with
  | nil => intro tr t h; simp [elo_alert_loop]
  | cons a ts ih =>
    intro tr t h
    simp only [elo_alert_loop]
    by_cases hc : a ∉ tr ∧ ra ≥ a
    · rw [if_pos hc]
      intro hmem
      rcases List.mem_cons.mp hmem with he | he
      · exact hc.1 (he ▸ h)
      · exact ih (tr ++ [a]) t (List.mem_append_left _ h) he
    · rw [if_neg hc]
      exact ih tr t h

theorem process_finished_alerts_none (now dayKey : String) (st : PlayerState)
    (m : MatchData) :
    (process_finished now dayKey st m none).1.triggered_elo_alerts
        = st.triggered_elo_alerts ∧
      eventAlerts (process_finished now dayKey st m none).2 = [] := ⟨rfl, rfl⟩

theorem process_finished_alerts_some (now dayKey : String) (st : PlayerState)
    (m : MatchData) (ra : Int) :
    (process_finished now dayKey st m (some ra)).1.triggered_elo_alerts
        = (elo_alert_loop ra st.elo_thresholds st.triggered_elo_alerts).1 ∧
      eventAlerts (process_finished now dayKey st m (some ra)).2
        = (elo_alert_loop ra st.elo_thresholds st.triggered_elo_alerts).2 := ⟨rfl, rfl⟩

/-- Shape of the alert effect of one operation: either no alert fires
and the triggered list is untouched, or the triggered list and the
fired alerts both come from one run of the alert loop over the state's
thresholds and triggered list. -/
theorem step_alert_shape (now dayKey : String) (st : PlayerState) (o : Op) :
    (eventAlerts (apply_op now dayKey st o).2 = [] ∧
      (apply_op now dayKey st o).1.triggered_elo_alerts = st.triggered_elo_alerts) ∨
    (∃ ra, (apply_op now dayKey st o).1.triggered_elo_alerts
        = (elo_alert_loop ra st.elo_thresholds st.triggered_elo_alerts).1 ∧
      eventAlerts (apply_op now dayKey st o).2
        = (elo_alert_loop ra st.elo_thresholds st.triggered_elo_alerts).2) := by
  cases o with
  | setTilt v => exact Or.inl ⟨rfl, rfl⟩
  | addElo v =>
    left
    constructor
    · rfl
    · show (add_elo_threshold st v).triggered_elo_alerts = st.triggered_elo_alerts
      unfold add_elo_threshold
      split <;> rfl
  | tick f =>
    cases f with
    | none => exact Or.inl ⟨rfl, rfl⟩
    | some m =>
      have happ : apply_op now dayKey st (Op.tick (some m))
          = check_friend_step now dayKey st (some m) := rfl
      by_cases h1 : m.ongoing = true
      · by_cases h2 : st.current_match_id ≠ m.uuid
        · left
          rw [happ, check_friend_step_ongoing_new now dayKey st m h1 h2]
          constructor
          · rfl
          · rw [record_match_start_triggered]
            show (tick_rating_update now st
                (extract_player_info m st.id).rating).triggered_elo_alerts = _
            exact tick_rating_update_triggered now st _
        · push_neg at h2
          left
          rw [happ, check_friend_step_ongoing_same now dayKey st m h1 h2]
          exact ⟨rfl, tick_rating_update_triggered now st _⟩
      · have h1' : m.ongoing = false := by simpa using h1
        by_cases h2 : truthyStr st.current_match_id = true ∧ st.current_match_id = m.uuid
        · rw [happ, check_friend_step_finished_tracked now dayKey st m h1' h2.1 h2.2]
          cases hra : (extract_player_info m st.id).rating with
          | none =>
            left
            refine ⟨(process_finished_alerts_none now dayKey _ m).2, ?_⟩
            rw [(process_finished_alerts_none now dayKey _ m).1]
            exact tick_rating_update_triggered now st _
          | some ra =>
            right
            refine ⟨ra, ?_, ?_⟩
            · rw [(process_finished_alerts_some now dayKey _ m ra).1,
                tick_rating_update_thresholds, tick_rating_update_triggered]
            · rw [(process_finished_alerts_some now dayKey _ m ra).2,
                tick_rating_update_thresholds, tick_rating_update_triggered]
        · left
          rw [happ, check_friend_step_finished_skip now dayKey st m h1' h2]
          exact ⟨rfl, tick_rating_update_triggered now st _⟩

/-- The triggered list only grows under any operation. -/
theorem step_triggered_mono (now dayKey : String) (st : PlayerState) (o : Op) (t : Int)
    (h : t ∈ st.triggered_elo_alerts) :
    t ∈ (apply_op now dayKey st o).1.triggered_elo_alerts := by
  rcases step_alert_shape now dayKey st o with ⟨_, hs⟩ | ⟨ra, hs, _⟩
  · rw [hs]
    exact h
  · rw [hs]
    exact elo_alert_loop_mono ra _ _ t h

/-- A threshold already in the triggered list never fires on any later
operation. -/
theorem fired_zero_of_triggered (now dayKey : String) (t : Int) :
    ∀ (ops : List Op) (st : PlayerState), t ∈ st.triggered_elo_alerts →
      fired_count t now dayKey st ops = 0 := by
  intro ops
  induction ops with
  | nil => intro st _; rfl
  | cons o os ih =>
    intro st h
    simp only [fired_count]
    have hnot : ¬ t ∈ eventAlerts (apply_op now dayKey st o).2 := by
      rcases step_alert_shape now dayKey st o with ⟨he, _⟩ | ⟨ra, _, he⟩
      · rw [he]
        simp
      · rw [he]
        exact elo_alert_loop_no_refire ra _ _ t h
    rw [if_neg hnot, ih _ (step_triggered_mono now dayKey st o t h)]

/-- Each threshold fires at most once over any sequence of operations. -/
theorem fired_le_one (now dayKey : String) (t : Int) :
    ∀ (ops : List Op) (st : PlayerState), fired_count t now dayKey st ops ≤ 1 := by
  intro ops
  induction ops with
  | nil => intro st; exact Nat.zero_le 1
  | cons o os ih =>
    intro st
    simp only [fired_count]
    by_cases hf : t ∈ eventAlerts (apply_op now dayKey st o).2
    · rw [if_pos hf]
      rcases step_alert_shape now dayKey st o with ⟨he, _⟩ | ⟨ra, hs, he⟩
      · rw [he] at hf
        simp at hf
      · have h2 := elo_alert_loop_fired ra st.elo_thresholds st.triggered_elo_alerts t
          (he ▸ hf)
        have hmem : t ∈ (apply_op now dayKey st o).1.triggered_elo_alerts := by
          rw [hs]
          exact h2.2.2
        rw [fired_zero_of_triggered now dayKey t os _ hmem]
    · rw [if_neg hf]
      simpa using ih (apply_op now dayKey st o).1

/-- C5: an Elo threshold alert fires only when the rating after the
match reaches the threshold and the threshold is not yet triggered,
firing records the threshold in the triggered list, the triggered list
only ever grows under any operation, and over any sequence of
operations each threshold fires at most once. -/
theorem c5_elo_alert_once :
    (∀ (ra : Int) (ts triggered : List Int) (t : Int),
      t ∈ (elo_alert_loop ra ts triggered).2 →
        t ∉ triggered ∧ ra ≥ t ∧ t ∈ (elo_alert_loop ra ts triggered).1) ∧
    (∀ (now dayKey : String) (st : PlayerState) (o : Op) (t : Int),
      t ∈ st.triggered_elo_alerts →
        t ∈ (apply_op now dayKey st o).1.triggered_elo_alerts) ∧
    (∀ (t : Int) (now dayKey : String) (st : PlayerState) (ops : List Op),
      fired_count t now dayKey st ops ≤ 1) := by
  refine ⟨?_, ?_, ?_⟩
  · intro ra ts triggered t h
    exact elo_alert_loop_fired ra ts triggered t h
  · intro now dayKey st o t h
    exact step_triggered_mono now dayKey st o t h
  · intro t now dayKey st ops
    exact fired_le_one now dayKey t ops st

/-- C5 witness: a concrete alert run where the threshold 1100 fires once
with rating 1200, and the at-most-once count on a concrete operation
sequence that crosses the threshold twice. -/
theorem c5_elo_alert_once_witness :
    ((1100 : Int) ∉ ([] : List Int) ∧ (1200 : Int) ≥ 1100 ∧
      (1100 : Int) ∈ (elo_alert_loop 1200 [1100] []).1) ∧
    (1100 : Int) ∈ (apply_op "t1" "d1"
      { new_player_data 9 with triggered_elo_alerts := [1100] }
      (Op.addElo 1200)).1.triggered_elo_alerts ∧
    fired_count 1100 "t1" "d1"
      { new_player_data 9 with
          elo_thresholds := [1100],
          current_match_id := some "A",
          current_match_start_rating := some 1000 }
      [Op.tick (some c2_match), Op.tick (some c2_match)] ≤ 1 :=
  ⟨c5_elo_alert_once.1 1200 [1100] [] 1100 (by decide),
   c5_elo_alert_once.2.1 "t1" "d1" _ (Op.addElo 1200) 1100 (by decide),
   c5_elo_alert_once.2.2 1100 "t1" "d1" _ _⟩

/- Machinery for the tilt debounce. -/

/-- The tilt flag is exactly the post-update loss streak reaching the
threshold. -/
theorem record_match_end_tilt_iff (now dayKey : String) (st : PlayerState) (m : MatchData) :
    (record_match_end now dayKey st m).2.tilt_fired = true ↔
      ((updateStreaks (record_match_end now dayKey st m).2.result
          st.wins_streak st.losses_streak).2 : Int) ≥ st.tilt_threshold := by
  constructor
  · intro h
    exact of_decide_eq_true h
  · intro h
    exact decide_eq_true h

/-- The stored loss streak after the end recording: zero on a tilt fire,
the post-update streak otherwise. -/
theorem record_match_end_losses (now dayKey : String) (st : PlayerState) (m : MatchData) :
    (record_match_end now dayKey st m).1.losses_streak
      = if (record_match_end now dayKey st m).2.tilt_fired then 0
        else (updateStreaks (record_match_end now dayKey st m).2.result
          st.wins_streak st.losses_streak).2 := rfl

theorem rme_verloren_losses (now dayKey : String) (st : PlayerState) (m : MatchData)
    (hres : (record_match_end now dayKey st m).2.result = ResultText.verloren) :
    (updateStreaks (record_match_end now dayKey st m).2.result
        st.wins_streak st.losses_streak).2 = st.losses_streak + 1 := by
  rw [hres]
  rfl

theorem rme_loss_fired_iff (now dayKey : String) (st : PlayerState) (m : MatchData)
    (hres : (record_match_end now dayKey st m).2.result = ResultText.verloren) :
    ((record_match_end now dayKey st m).2.tilt_fired = true ↔
      (st.losses_streak : Int) + 1 ≥ st.tilt_threshold) := by
  rw [record_match_end_tilt_iff, rme_verloren_losses now dayKey st m hres]
  push_cast
  exact Iff.rfl

theorem rme_tilt_resets (now dayKey : String) (st : PlayerState) (m : MatchData)
    (h : (record_match_end now dayKey st m).2.tilt_fired = true) :
    (record_match_end now dayKey st m).1.losses_streak = 0 := by
  rw [record_match_end_losses, h]
  rfl

/-- Concrete player with tilt threshold 1 observing match L1. -/
def c6_state : PlayerState :=
  { new_player_data 7 with
    tilt_threshold := 1,
    current_match_id := some "L1",
    current_match_start_rating := some 1000 }

/-- Concrete finished snapshot of match L1 reporting an explicit loss. -/
def c6_loss : MatchData :=
  { uuid := some "L1", ongoing := false,
    players := [{ player_id := some 7, rating := some 990,
                  civilization := none, civilization_name := none,
                  civ_name := none, civ := none, won := PyWon.bool false }],
    duration := none, finished := none, map_name := none, name := none,
    map_type := none, leaderboard := none }

/-- C6 counterexample: with tilt threshold 1, a loss fires the tilt
warning and resets the streak, and the immediately following loss fires
it again, contradicting the claim that after a fire the immediately
following loss never re-fires. -/
theorem c6_counterexample :
    (record_match_end "t1" "d1" c6_state c6_loss).2.tilt_fired = true ∧
    (record_match_end "t2" "d2" (record_match_end "t1" "d1" c6_state c6_loss).1
        c6_loss).2.tilt_fired = true := ⟨rfl, rfl⟩

/-- C6 amended: the tilt warning fires exactly when the post-update loss
streak reaches the threshold t, firing resets the loss streak to 0, on
a loss the fire condition is previous streak plus one reaching t and a
non-firing loss increments the streak by one, so after a fire t further
consecutive losses are needed; in particular for t at least 2 the
immediately following loss cannot re-fire. -/
theorem c6_tilt_debounce (now dayKey : String) (st : PlayerState) (m : MatchData) :
    ((record_match_end now dayKey st m).2.tilt_fired = true ↔
      ((updateStreaks (record_match_end now dayKey st m).2.result
          st.wins_streak st.losses_streak).2 : Int) ≥ st.tilt_threshold) ∧
    ((record_match_end now dayKey st m).2.tilt_fired = true →
      (record_match_end now dayKey st m).1.losses_streak = 0) ∧
    ((record_match_end now dayKey st m).2.result = ResultText.verloren →
      ((record_match_end now dayKey st m).2.tilt_fired = true ↔
        (st.losses_streak : Int) + 1 ≥ st.tilt_threshold)) ∧
    ((record_match_end now dayKey st m).2.result = ResultText.verloren →
      (record_match_end now dayKey st m).2.tilt_fired = false →
      (record_match_end now dayKey st m).1.losses_streak = st.losses_streak + 1) ∧
    ((record_match_end now dayKey st m).2.tilt_fired = true →
      (2 : Int) ≤ st.tilt_threshold →
      ∀ (now2 day2 : String) (m2 : MatchData),
        (record_match_end now2 day2 (record_match_end now dayKey st m).1 m2).2.result
            = ResultText.verloren →
        (record_match_end now2 day2 (record_match_end now dayKey st m).1 m2).2.tilt_fired
            = false) := by
  refine ⟨record_match_end_tilt_iff now dayKey st m, rme_tilt_resets now dayKey st m,
    fun hres => rme_loss_fired_iff now dayKey st m hres, ?_, ?_⟩
  · intro hres hf
    rw [record_match_end_losses, hf, rme_verloren_losses now dayKey st m hres]
    rfl
  · intro hf ht now2 day2 m2 hres2
    have h0 : (record_match_end now dayKey st m).1.losses_streak = 0 :=
      rme_tilt_resets now dayKey st m hf
    have hiff := rme_loss_fired_iff now2 day2 (record_match_end now dayKey st m).1 m2 hres2
    rw [h0, record_match_end_tilt_thr] at hiff
    cases hb : (record_match_end now2 day2
        (record_match_end now dayKey st m).1 m2).2.tilt_fired
    · rfl
    · exfalso
      have h1 := hiff.mp hb
      push_cast at h1
      omega

/-- Concrete player with tilt threshold 2 and one loss already on the
streak, tracking match L1. -/
def c6w_state : PlayerState :=
  { new_player_data 7 with
    tilt_threshold := 2,
    losses_streak := 1,
    current_match_id := some "L1",
    current_match_start_rating := some 1000 }

/-- C6 witness: with threshold 2 the second consecutive loss fires the
warning, and the immediately following loss does not re-fire. -/
theorem c6_tilt_debounce_witness :
    (record_match_end "t2" "d2" (record_match_end "t1" "d1" c6w_state c6_loss).1
        c6_loss).2.tilt_fired = false :=
  (c6_tilt_debounce "t1" "d1" c6w_state c6_loss).2.2.2.2 rfl (by decide) "t2" "d2"
    c6_loss rfl

/-- The signed streak of the spec obtained from the two counters of the
source: wins minus losses. -/
def signed_streak (wins losses : Nat) : Int := (wins : Int) - (losses : Int)

/-- C7: on the two-counter representation with at least one counter
zero, the streak update realises the signed-streak rule: a win maps the
signed streak s to max s 0 + 1, a loss to min s 0 - 1, anything else to
0; a result of the opposite sign therefore resets the magnitude to
exactly 1, and every update keeps at least one counter zero. -/
theorem c7_streak_update (w l : Nat) (h : w = 0 ∨ l = 0) :
    (signed_streak (updateStreaks ResultText.gewonnen w l).1
        (updateStreaks ResultText.gewonnen w l).2
      = max (signed_streak w l) 0 + 1) ∧
    (signed_streak (updateStreaks ResultText.verloren w l).1
        (updateStreaks ResultText.verloren w l).2
      = min (signed_streak w l) 0 - 1) ∧
    (∀ r : ResultText, r ≠ ResultText.gewonnen → r ≠ ResultText.verloren →
      signed_streak (updateStreaks r w l).1 (updateStreaks r w l).2 = 0) ∧
    (signed_streak w l ≤ 0 →
      signed_streak (updateStreaks ResultText.gewonnen w l).1
        (updateStreaks ResultText.gewonnen w l).2 = 1) ∧
    (0 ≤ signed_streak w l →
      signed_streak (updateStreaks ResultText.verloren w l).1
        (updateStreaks ResultText.verloren w l).2 = -1) ∧
    (∀ r : ResultText, (updateStreaks r w l).1 = 0 ∨ (updateStreaks r w l).2 = 0) := by
  refine ⟨?_, ?_, ?_, ?_, ?_, ?_⟩
  · rcases h with h | h <;> subst h <;> simp [updateStreaks, signed_streak]
  · rcases h with h | h <;> subst h <;> simp [updateStreaks, signed_streak]
    omega
  · intro r hg hv
    cases r with
    | gewonnen => exact absurd rfl hg
    | verloren => exact absurd rfl hv
    | unentschieden => simp [updateStreaks, signed_streak]
    | unbekannt => simp [updateStreaks, signed_streak]
  · intro hs
    rcases h with h | h <;> subst h <;> simp [updateStreaks, signed_streak] at hs ⊢
    omega
  · intro hs
    rcases h with h | h <;> subst h <;> simp [updateStreaks, signed_streak] at hs ⊢
    omega
  · intro r
    cases r <;> simp [updateStreaks]

/-- C7 witness: the signed-streak win rule evaluated on a two-loss
streak, restarting at exactly 1. -/
theorem c7_streak_update_witness :
    signed_streak (updateStreaks ResultText.gewonnen 0 2).1
        (updateStreaks ResultText.gewonnen 0 2).2
      = max (signed_streak 0 2) 0 + 1 :=
  (c7_streak_update 0 2 (Or.inl rfl)).1

/- Machinery for the result classification. -/

/-- The stored result is the classification of the extracted won flag
and the computed rating difference. -/
theorem record_match_end_result (now dayKey : String) (st : PlayerState) (m : MatchData) :
    (record_match_end now dayKey st m).2.result
      = classifyResult (extract_player_info m st.id).won
          (record_match_end now dayKey st m).2.diff := rfl

/-- The stored rating difference is after minus before when both are
known and absent otherwise. -/
theorem record_match_end_diff (now dayKey : String) (st : PlayerState) (m : MatchData) :
    (record_match_end now dayKey st m).2.diff
      = match (record_match_end now dayKey st m).2.rating_after,
              (record_match_end now dayKey st m).2.rating_before with
        | some ra, some rb => some (ra - rb)
        | _, _ => none := rfl

/-- C8: the end-of-match result classification uses the explicit won
flag when present; otherwise it is derived from the sign of the rating
difference after minus before, with a positive difference a win, a
negative one a loss, and a zero or unknown difference neither. -/
theorem c8_result_classification (now dayKey : String) (st : PlayerState) (m : MatchData) :
    ((record_match_end now dayKey st m).2.result
      = classifyResult (extract_player_info m st.id).won
          (record_match_end now dayKey st m).2.diff) ∧
    ((record_match_end now dayKey st m).2.diff
      = match (record_match_end now dayKey st m).2.rating_after,
              (record_match_end now dayKey st m).2.rating_before with
        | some ra, some rb => some (ra - rb)
        | _, _ => none) ∧
    (∀ (b : Bool) (d : Option Int),
      classifyResult (some b) d
        = if b then ResultText.gewonnen else ResultText.verloren) ∧
    (∀ d : Int, 0 < d → classifyResult none (some d) = ResultText.gewonnen) ∧
    (∀ d : Int, d < 0 → classifyResult none (some d) = ResultText.verloren) ∧
    (classifyResult none (some 0) ≠ ResultText.gewonnen ∧
      classifyResult none (some 0) ≠ ResultText.verloren) ∧
    (classifyResult none none ≠ ResultText.gewonnen ∧
      classifyResult none none ≠ ResultText.verloren) ∧
    (∀ b : Bool, pyWonToBool (PyWon.bool b) = some b) := by
  refine ⟨rfl, rfl, ?_, ?_, ?_, by decide, by decide, fun b => rfl⟩
  · intro b d
    rfl
  · intro d hd
    simp only [classifyResult]
    rw [if_pos hd]
  · intro d hd
    simp only [classifyResult]
    rw [if_neg (by omega), if_pos hd]

/-- C8 witness: the classification rules evaluated at an explicit loss
flag, a positive difference and a negative difference. -/
theorem c8_result_classification_witness :
    (classifyResult (some false) (some 25)
        = if false then ResultText.gewonnen else ResultText.verloren) ∧
      classifyResult none (some 25) = ResultText.gewonnen ∧
      classifyResult none (some (-25)) = ResultText.verloren :=
  ⟨(c8_result_classification "t1" "d1" c2_state c2_match).2.2.1 false (some 25),
   (c8_result_classification "t1" "d1" c2_state c2_match).2.2.2.1 25 (by omega),
   (c8_result_classification "t1" "d1" c2_state c2_match).2.2.2.2.1 (-25) (by omega)⟩

/-- C9: a missing or empty bot token, or a chat id value that does not
parse to an integer, makes the entry point fail with an error before
any handler or job is installed; a successful start requires both. -/
theorem c9_config_failure (bot_token chat_id_env : Option String) :
    ((truthyStr bot_token = false ∨ CHAT_ID_of chat_id_env = none) →
      ∃ msg, main_entry bot_token chat_id_env = Except.error msg) ∧
    (∀ app : BotApp, main_entry bot_token chat_id_env = Except.ok app →
      truthyStr bot_token = true ∧ (CHAT_ID_of chat_id_env).isSome = true) := by
  constructor
  · intro h
    unfold main_entry
    by_cases hb : truthyStr bot_token = false
    · rw [if_pos hb]
      exact ⟨_, rfl⟩
    · rw [if_neg hb]
      rcases h with h | h
      · exact absurd h hb
      · rw [if_pos (by rw [h]; rfl)]
        exact ⟨_, rfl⟩
  · intro app happ
    unfold main_entry at happ
    by_cases hb : truthyStr bot_token = false
    · rw [if_pos hb] at happ
      exact absurd happ (by simp)
    · rw [if_neg hb] at happ
      constructor
      · cases hbv : truthyStr bot_token
        · exact absurd hbv hb
        · rfl
      · cases hco : CHAT_ID_of chat_id_env with
        | none =>
          rw [if_pos (by rw [hco]; rfl)] at happ
          exact absurd happ (by simp)
        | some v => rfl

/-- C9 witness: with no bot token the entry point returns an error. -/
theorem c9_config_failure_witness :
    ∃ msg, main_entry none (some "-100123") = Except.error msg :=
  (c9_config_failure none (some "-100123")).1 (Or.inl rfl)

end AOE2
